import Mathlib

/-!
Shallow embedding of the USERQUERY browser instrumentation agent
(`src/log.js`): the element-identity engine (signature extraction,
FNV-1a-style hashing, collision disambiguation) and the event
batching/delivery pipeline (enrichment, buffering, flush, lifecycle).

JS strings are modelled as Lean `String`; JS string truthiness is
"nonempty"; `getAttribute` results are `Option String` (with `some ""`
still falsy); 32-bit integer arithmetic is `Nat` arithmetic taken
modulo `2 ^ 32` where the code truncates.
-/

namespace UserQuery

/-- JS truthiness of a nullable string: `null`/`undefined` and `""` are falsy. -/
def jsTruthy : Option String → Bool
  | none => false
  | some s => s ≠ ""

/-! ### Base conversion (JS `Number.prototype.toString(base)`)

Fuel-indexed so that it is structurally recursive and kernel-computable;
fuel `n + 1` always suffices since the argument shrinks by division. -/

/-- Digit characters `0-9a-z`, as JS `toString(base)` uses (lowercase). -/
def digitCharJS (d : Nat) : Char :=
  if d < 10 then Char.ofNat (48 + d) else Char.ofNat (87 + d)

/-- Most-significant-first digit list of `n` in base `b`, fuel-bounded. -/
def toDigitsAux (b : Nat) : Nat → Nat → List Char → List Char
  | 0, _, acc => acc
  | fuel + 1, n, acc =>
    if n = 0 then acc else toDigitsAux b fuel (n / b) (digitCharJS (n % b) :: acc)

/-- JS `n.toString(b)` for a nonnegative integer `n`. -/
def toStringBase (b n : Nat) : String :=
  if n = 0 then "0" else String.mk (toDigitsAux b (n + 1) n [])

/-- JS `String.prototype.toLowerCase`, defined structurally on the
character list so it evaluates inside the kernel. -/
def toLowerJS (s : String) : String := String.mk (s.data.map Char.toLower)

/-- JS `String.prototype.trim`: strip whitespace from both ends, defined
structurally on the character list. -/
def trimJS (s : String) : String :=
  String.mk (((s.data.dropWhile Char.isWhitespace).reverse.dropWhile
    Char.isWhitespace).reverse)

/-! ### Signature extractor (`generateElementSignature`) -/

/-- Static view of a DOM element: the fields `generateElementSignature`
and `labelElement` read. `tagName = none` models a missing tag name,
`nameAttr`/`typeAttr` are `getAttribute` results, and `dataZenId` is the
current `data-zenid` attribute (`none` when `hasAttribute` is false). -/
structure Element where
  tagName : Option String
  id : String
  className : String
  nameAttr : Option String
  typeAttr : Option String
  textContent : String
  dataZenId : Option String
deriving DecidableEq

/-- `generateElementSignature(element)`: `null` when the input or its tag
name is falsy, else the `|`-joined token list built from the static
attributes (id, class, name, type, short trimmed text). -/
def generateElementSignature (element : Option Element) : Option String :=
  match element with
  | none => none
  | some el =>
    match el.tagName with
    | none => none
    | some tag =>
      if tag = "" then none
      else
        let parts := [toLowerJS tag]
        let parts := if el.id ≠ "" then parts ++ ["id:" ++ el.id] else parts
        let parts := if el.className ≠ "" then parts ++ ["class:" ++ el.className] else parts
        let parts :=
          match el.nameAttr with
          | some n => if n ≠ "" then parts ++ ["name:" ++ n] else parts
          | none => parts
        let parts :=
          match el.typeAttr with
          | some t => if t ≠ "" then parts ++ ["type:" ++ t] else parts
          | none => parts
        let text := trimJS el.textContent
        let parts := if text ≠ "" ∧ text.length < 50 then parts ++ ["text:" ++ text] else parts
        some (String.intercalate "|" parts)

/-! ### Hash (`fnv32a`) -/

/-- `2 ^ 32`, the modulus of JS 32-bit truncation. -/
def M32 : Nat := 2 ^ 32

/-- JS `x << k` on a 32-bit quantity, as a residue modulo `2 ^ 32`. -/
def shl32 (x k : Nat) : Nat := x * 2 ^ k % M32

/-- One mixing step of the hash loop:
`hash += (hash<<1) + (hash<<4) + (hash<<7) + (hash<<8) + (hash<<24)`,
truncated to 32 bits. -/
def fnvMix (x : Nat) : Nat :=
  (x + shl32 x 1 + shl32 x 4 + shl32 x 7 + shl32 x 8 + shl32 x 24) % M32

/-- One loop iteration: `hash ^= str.charCodeAt(i)` then the mix. -/
def fnvStep (h c : Nat) : Nat := fnvMix (h ^^^ c)

/-- The hash loop over a list of character codes, seeded with `0x811c9dc5`. -/
def fnvHash (codes : List Nat) : Nat := codes.foldl fnvStep 0x811c9dc5

/-- `fnv32a(str)`: the 32-bit hash of the string, rendered in base 36. -/
def fnv32a (s : String) : String :=
  toStringBase 36 (fnvHash (s.data.map Char.toNat))

/-! ### Identity registry (`__zenMapping`, `generateStableZenId`, `labelElement`) -/

/-- One registry entry: the canonical id and the occurrence count. -/
structure ZenEntry where
  id : String
  count : Nat
deriving DecidableEq

/-- The `__zenMapping` object, as an association list keyed by signature. -/
abbrev ZenMapping := List (String × ZenEntry)

/-- Property lookup in the mapping. -/
def lookupZen : ZenMapping → String → Option ZenEntry
  | [], _ => none
  | (k, v) :: rest, sig => if sig = k then some v else lookupZen rest sig

/-- In-place update of the entry stored under `sig`. -/
def updateZen : ZenMapping → String → ZenEntry → ZenMapping
  | [], _, _ => []
  | (k, v) :: rest, sig, e =>
    if sig = k then (k, e) :: rest else (k, v) :: updateZen rest sig e

/-- `generateStableZenId(element)` together with its side effect on the
registry: first request stores `{id: "zen-"+hash, count: 1}` and returns
the base id; later requests return the suffixed id and bump the count. -/
def generateStableZenId (element : Option Element) (m : ZenMapping) :
    Option String × ZenMapping :=
  match generateElementSignature element with
  | none => (none, m)
  | some signature =>
    let baseHash := "zen-" ++ fnv32a signature
    match lookupZen m signature with
    | none => (some baseHash, (signature, ⟨baseHash, 1⟩) :: m)
    | some entry =>
      let newId :=
        if entry.count = 1 then baseHash ++ "-2"
        else baseHash ++ "-" ++ toString (entry.count + 1)
      (some newId, updateZen m signature { entry with count := entry.count + 1 })

/-- `labelElement(el)`: set `data-zenid` only when the element has none
and a zen id could be generated. Returns the updated element and registry. -/
def labelElement (el : Element) (m : ZenMapping) : Element × ZenMapping :=
  match el.dataZenId with
  | some _ => (el, m)
  | none =>
    let r := generateStableZenId (some el) m
    match r.1 with
    | some zenId => ({ el with dataZenId := some zenId }, r.2)
    | none => (el, r.2)

/-- `k` successive `generateStableZenId` requests for the same element,
returning the ids in order and the final registry. -/
def zenRequests (el : Option Element) (m : ZenMapping) : Nat → List (Option String) × ZenMapping
  | 0 => ([], m)
  | k + 1 =>
    let p := zenRequests el m k
    let q := generateStableZenId el p.2
    (p.1 ++ [q.1], q.2)

/-! ### Event payloads (`trackInternal` enrichment) -/

/-- A JS value, as far as event payloads need. -/
inductive JSVal where
  | str : String → JSVal
  | num : Int → JSVal
  | nul : JSVal
deriving DecidableEq

/-- A JS object literal as an ordered list of key/value insertions;
a later insertion of the same key overrides an earlier one (spread
semantics). -/
abbrev Payload := List (String × JSVal)

/-- Property read on an object literal: the LAST insertion of the key wins,
as with JS object spread. -/
def jsGet : Payload → String → Option JSVal
  | [], _ => none
  | (k, v) :: rest, key =>
    match jsGet rest key with
    | some v' => some v'
    | none => if key = k then some v else none

/-- A nullable string as a JS value (`null` when absent). -/
def optVal : Option String → JSVal
  | none => JSVal.nul
  | some s => JSVal.str s

/-- Ambient browser context read by `trackInternal` (clock, location,
navigator, screen, document). -/
structure Ctx where
  now : String
  url : String
  userAgent : String
  screenSize : String
  language : String
  referrer : String
  title : String
deriving DecidableEq

/-- One listener registration pushed onto `_eventListeners`. -/
structure Listener where
  target : String
  event : String
  capture : Bool
deriving DecidableEq

/-- The seven registrations `attachCoreEventListeners` performs, in order. -/
def coreListeners : List Listener :=
  [⟨"document", "click", false⟩, ⟨"window", "load", false⟩,
   ⟨"window", "beforeunload", true⟩, ⟨"window", "scroll", false⟩,
   ⟨"window", "resize", false⟩, ⟨"document", "visibilitychange", false⟩,
   ⟨"window", "error", false⟩]

/-- Merged configuration (`_config`). -/
structure Config where
  siteId : String
  batchInterval : Nat
deriving DecidableEq

/-- `DEFAULT_CONFIG`. -/
def DEFAULT_CONFIG : Config := ⟨"UNKNOWN_SITE", 5000⟩

/-- Caller-supplied options to `init` (absent keys are `none`). -/
structure ConfigOpts where
  siteId : Option String
  batchInterval : Option Nat
deriving DecidableEq

/-- `Object.assign({}, DEFAULT_CONFIG, config)`. -/
def mergeConfig (opts : ConfigOpts) : Config :=
  ⟨opts.siteId.getD DEFAULT_CONFIG.siteId,
   opts.batchInterval.getD DEFAULT_CONFIG.batchInterval⟩

/-- One POST handed to the delivery transport: the serialized
`{userId, siteId, events}` body as snapshotted at the flush call. -/
structure Delivery where
  userId : Option String
  siteId : Option String
  events : List Payload
deriving DecidableEq

/-- The module-level mutable state of the agent, plus an observation
trace: `delivered` records every transport call made so far and
`pendingDeliveries` counts fetches whose completion callback has not yet
run. -/
structure AgentState where
  isInit : Bool
  siteId : Option String
  userId : Option String
  config : Config
  eventListeners : List Listener
  eventBatch : List Payload
  batchTimer : Option Nat
  pendingDeliveries : Nat
  delivered : List Delivery
deriving DecidableEq

/-- The state at script load: everything empty, `_config = {}` modelled
by the defaults (it is only read after `init` overwrites it). -/
def initialState : AgentState :=
  ⟨false, none, none, DEFAULT_CONFIG, [], [], none, 0, []⟩

/-- The fixed base context `trackInternal` builds before spreading the
caller data. -/
def baseContext (ctx : Ctx) (st : AgentState) (eventName : String) : Payload :=
  [("eventName", JSVal.str eventName), ("timestamp", JSVal.str ctx.now),
   ("siteId", optVal st.siteId), ("userId", optVal st.userId),
   ("url", JSVal.str ctx.url), ("userAgent", JSVal.str ctx.userAgent),
   ("screenSize", JSVal.str ctx.screenSize), ("language", JSVal.str ctx.language),
   ("referrer", JSVal.str ctx.referrer)]

/-- `trackInternal(eventName, data)`: push the enriched payload
(base context spread-merged with `data`, caller keys last) onto the batch. -/
def trackInternal (ctx : Ctx) (st : AgentState) (eventName : String) (data : Payload) :
    AgentState :=
  { st with eventBatch := st.eventBatch ++ [baseContext ctx st eventName ++ data] }

/-- `flushEventBatch()`: no-op on an empty batch; otherwise POST the
current batch (serialized synchronously) and leave the completion
callback outstanding. The live buffer is NOT touched here. -/
def flushEventBatch (st : AgentState) : AgentState :=
  if st.eventBatch = [] then st
  else
    { st with
      delivered := st.delivered ++ [⟨st.userId, st.siteId, st.eventBatch⟩],
      pendingDeliveries := st.pendingDeliveries + 1 }

/-- One outstanding fetch settles. Both the `.then` branch (any response
status, `ok` true or false) and the `.catch` branch run
`_eventBatch = []`, so the flag does not change the state effect. -/
def completeDelivery (ok : Bool) (st : AgentState) : AgentState :=
  if st.pendingDeliveries = 0 then st
  else
    let _ := ok
    { st with eventBatch := [], pendingDeliveries := st.pendingDeliveries - 1 }

/-- `USERQUERY.init(config)`. `uid` abstracts the `getOrCreateUserId()`
result and `readyComplete` the `document.readyState === "complete"` test. -/
def USERQUERY.init (ctx : Ctx) (uid : String) (readyComplete : Bool)
    (config : ConfigOpts) (st : AgentState) : AgentState :=
  if st.isInit then st
  else
    let merged := mergeConfig config
    let st1 := { st with
      isInit := true, config := merged,
      siteId := some merged.siteId, userId := some uid }
    let st2 := { st1 with eventListeners := st1.eventListeners ++ coreListeners }
    let st3 :=
      if readyComplete then trackInternal ctx st2 "pageLoad" [("title", JSVal.str ctx.title)]
      else st2
    { st3 with batchTimer := some merged.batchInterval }

/-- `USERQUERY.stop()`: when active, remove all listeners, flush once,
cancel the timer. -/
def USERQUERY.stop (st : AgentState) : AgentState :=
  if !st.isInit then st
  else
    let st1 := { st with isInit := false, eventListeners := [] }
    let st2 := flushEventBatch st1
    { st2 with batchTimer := none }

/-- `USERQUERY.trackCustom(eventName, data)`: warn-and-skip when not
active. -/
def USERQUERY.trackCustom (ctx : Ctx) (eventName : String) (data : Payload)
    (st : AgentState) : AgentState :=
  if !st.isInit then st
  else trackInternal ctx st eventName data

/-! ### Identity persistence (`getOrCreateUserId`) -/

/-- The `localStorage` collaborator: whether each access throws, and the
currently stored `USERQUERY_uid` value. -/
structure StorageEnv where
  getThrows : Bool
  stored : Option String
  setThrows : Bool
deriving DecidableEq

/-- The `crypto` collaborator: whether the object exists at all, which
methods it has, and the randomness it would return. -/
structure CryptoEnv where
  present : Bool
  hasRandomUUID : Bool
  randomUUIDVal : String
  hasGetRandomValues : Bool
  randomBytes : List Nat
deriving DecidableEq

/-- `b.toString(16).padStart(2, "0")` as a character list. -/
def byteHex (b : Nat) : List Char :=
  let s := (toStringBase 16 b).data
  if s.length < 2 then List.replicate (2 - s.length) '0' ++ s else s

/-- JS `str.substr(start, len)` on a character list. -/
def substrJS (l : List Char) (start len : Nat) : List Char :=
  (l.drop start).take len

/-- The manual UUID-shaped fallback built from 16 random bytes:
`hex.substr(0,8)-hex.substr(8,4)-hex.substr(12,4)-hex.substr(16,4)-hex.substr(20,12)`. -/
def uuidFromBytes (bytes : List Nat) : String :=
  let hex := (bytes.map byteHex).flatten
  String.mk (substrJS hex 0 8 ++ '-' :: substrJS hex 8 4 ++ '-' :: substrJS hex 12 4 ++
    '-' :: substrJS hex 16 4 ++ '-' :: substrJS hex 20 12)

/-- `getOrCreateUserId()`. Storage reads/writes that throw are caught;
the `crypto.randomUUID` branch is guarded by a `typeof` test, but the
fallback branch calls `crypto.getRandomValues` unguarded, so a missing
`crypto` object (or missing `getRandomValues`) escapes as an error.
Returns the id together with the updated storage. -/
def getOrCreateUserId (st : StorageEnv) (cr : CryptoEnv) :
    Except String (String × StorageEnv) :=
  let existingId : Option String := if st.getThrows then none else st.stored
  if jsTruthy existingId then Except.ok (existingId.getD "", st)
  else
    if cr.present && cr.hasRandomUUID then
      let newId := cr.randomUUIDVal
      if st.setThrows then Except.ok (newId, st)
      else Except.ok (newId, { st with stored := some newId })
    else if cr.present && cr.hasGetRandomValues then
      let newId := uuidFromBytes (cr.randomBytes.take 16)
      if st.setThrows then Except.ok (newId, st)
      else Except.ok (newId, { st with stored := some newId })
    else Except.error "TypeError: crypto.getRandomValues is not a function"

/-! ### Spec-side definitions and concrete fixtures -/

/-- The signature as the spec words it (§4.1): the token sequence in fixed
order — tag name (case-normalized), then one bracketed optional token per
attribute, absent attributes contributing no token — joined with `|`.
Used only to compare against `generateElementSignature`. -/
def specSignature (element : Option Element) : Option String :=
  match element with
  | none => none
  | some el =>
    match el.tagName with
    | none => none
    | some tag =>
      if tag = "" then none
      else
        some (String.intercalate "|"
          ([toLowerJS tag]
            ++ (if el.id ≠ "" then ["id:" ++ el.id] else [])
            ++ (if el.className ≠ "" then ["class:" ++ el.className] else [])
            ++ (match el.nameAttr with
                | some n => if n ≠ "" then ["name:" ++ n] else []
                | none => [])
            ++ (match el.typeAttr with
                | some t => if t ≠ "" then ["type:" ++ t] else []
                | none => [])
            ++ (if trimJS el.textContent ≠ "" ∧ (trimJS el.textContent).length < 50
                then ["text:" ++ trimJS el.textContent] else [])))

/-- The id the spec promises for the n-th request on signature `s`:
`zen-<hash>` for the first, `zen-<hash>-n` for the n-th, n ≥ 2. -/
def expectedZenId (s : String) (n : Nat) : String :=
  if n ≤ 1 then "zen-" ++ fnv32a s else "zen-" ++ fnv32a s ++ "-" ++ toString n

/-- A fixed browser context used for concrete runs. -/
def ctxA : Ctx :=
  ⟨"2026-01-01T00:00:00.000Z", "https://example.com/", "UA/1.0", "1280x800",
   "en-US", "", "Example"⟩

/-- The `<button id="go">Go</button>` element of the spec scenario. -/
def btnGo : Element := ⟨some "BUTTON", "go", "", none, none, "Go", none⟩

/-- An element-like input with no tag name. -/
def noTagEl : Element := ⟨none, "x", "", none, none, "t", none⟩

/-- An element already carrying a `data-zenid` attribute. -/
def labeledEl : Element := ⟨some "DIV", "", "", none, none, "", some "zen-abc"⟩

/-- A running agent with an empty batch. -/
def stActive : AgentState :=
  ⟨true, some "abc", some "u1", DEFAULT_CONFIG, coreListeners, [], some 5000, 0, []⟩

/-- A running agent with one buffered event. -/
def stActiveBatch : AgentState :=
  { stActive with eventBatch := [[("eventName", JSVal.str "click")]] }

/-- The interleaving of C2: record a click, start a flush, record a scroll
while the delivery is in flight, then let the delivery complete. -/
def raceState : AgentState :=
  completeDelivery true
    (trackInternal ctxA (flushEventBatch (trackInternal ctxA stActive "click" []))
      "scroll" [])

/-- Sixteen concrete random bytes. -/
def rb16 : List Nat := List.range 16

/-- The click payload recorded before the flush of the C2 interleaving. -/
def clickPayA : Payload := baseContext ctxA stActive "click" ++ []

/-- The scroll payload recorded while that flush's delivery is in flight. -/
def scrollPayA : Payload :=
  baseContext ctxA (flushEventBatch (trackInternal ctxA stActive "click" [])) "scroll" ++ []

/-- init, stop, then init again on the same instance. -/
def restartedState : AgentState :=
  USERQUERY.init ctxA "u1" false ⟨some "abc", none⟩
    (USERQUERY.stop (USERQUERY.init ctxA "u1" false ⟨some "abc", none⟩ initialState))

/-! ## Theorems -/

/-- The shift-and-add mixing step is multiplication by the 32-bit FNV
prime `16777619`, modulo `2 ^ 32`. -/
theorem fnvMix_eq (x : Nat) : fnvMix x = x * 16777619 % M32 := by
  have h : (x + x * 2 ^ 1 % M32 + x * 2 ^ 4 % M32 + x * 2 ^ 7 % M32 + x * 2 ^ 8 % M32 +
      x * 2 ^ 24 % M32) % M32
      = (x + x * 2 ^ 1 + x * 2 ^ 4 + x * 2 ^ 7 + x * 2 ^ 8 + x * 2 ^ 24) % M32 :=
    (((((Nat.ModEq.refl x).add (Nat.mod_modEq _ _)).add (Nat.mod_modEq _ _)).add
      (Nat.mod_modEq _ _)).add (Nat.mod_modEq _ _)).add (Nat.mod_modEq _ _)
  have h2 : x + x * 2 ^ 1 + x * 2 ^ 4 + x * 2 ^ 7 + x * 2 ^ 8 + x * 2 ^ 24
      = x * 16777619 := by ring
  calc fnvMix x
      = (x + x * 2 ^ 1 % M32 + x * 2 ^ 4 % M32 + x * 2 ^ 7 % M32 + x * 2 ^ 8 % M32 +
          x * 2 ^ 24 % M32) % M32 := rfl
    _ = (x + x * 2 ^ 1 + x * 2 ^ 4 + x * 2 ^ 7 + x * 2 ^ 8 + x * 2 ^ 24) % M32 := h
    _ = x * 16777619 % M32 := by rw [h2]

/-- The hash value is always reduced below `2 ^ 32`. -/
theorem fnvHash_lt (codes : List Nat) : fnvHash codes < M32 := by
  have hM : 0 < M32 := by norm_num [M32]
  have aux : ∀ (cs : List Nat) (h : Nat), h < M32 → List.foldl fnvStep h cs < M32 := by
    intro cs
    induction cs with
    | nil => intro h hh; simpa using hh
    | cons c cs ih =>
      intro h hh
      exact ih _ (Nat.mod_lt _ hM)
  exact aux _ _ (by norm_num [M32])

set_option maxRecDepth 4000 in
/-- C5: the hash is a deterministic pure function of its input: from seed
`0x811c9dc5` it XORs in each character code and applies the fixed
shift-and-add mix, which equals multiplication by the FNV prime
`16777619` modulo `2 ^ 32`; the result is always an unsigned 32-bit
value, rendered in base 36, and matches the reference vector for the
fixed test string `button|id:go|text:Go`. -/
theorem fnv32a_spec :
    (∀ x : Nat, fnvMix x = x * 16777619 % M32) ∧
    (∀ codes : List Nat, fnvHash codes < M32) ∧
    fnv32a "button|id:go|text:Go" = "1n7tf2r" :=
  ⟨fnvMix_eq, fnvHash_lt, by decide⟩

/-- C4: the signature extractor returns `none` exactly when the input
lacks a tag name, and otherwise the `|`-joined token sequence in the
fixed order the spec states, absent attributes contributing no token and
the text token appearing only for nonempty trimmed text shorter than 50
characters; inputs with identical static attributes (whatever their
`data-zenid` state) yield identical signatures. -/
theorem generateElementSignature_spec :
    (∀ element : Option Element, generateElementSignature element = specSignature element) ∧
    (∀ e1 e2 : Element, e1.tagName = e2.tagName → e1.id = e2.id →
      e1.className = e2.className → e1.nameAttr = e2.nameAttr →
      e1.typeAttr = e2.typeAttr → e1.textContent = e2.textContent →
      generateElementSignature (some e1) = generateElementSignature (some e2)) := by
  constructor
  · intro element
    cases element with
    | none => rfl
    | some el =>
      obtain ⟨tg, i, c, na, ta, tx, dz⟩ := el
      cases tg with
      | none => rfl
      | some tag =>
        cases na <;> cases ta <;>
          simp only [generateElementSignature, specSignature] <;>
          split_ifs <;> simp [List.append_assoc]
  · intro e1 e2 h1 h2 h3 h4 h5 h6
    obtain ⟨t1, i1, c1, n1, ty1, x1, d1⟩ := e1
    obtain ⟨t2, i2, c2, n2, ty2, x2, d2⟩ := e2
    dsimp only at h1 h2 h3 h4 h5 h6
    subst h1 h2 h3 h4 h5 h6
    rfl

/-- C4 witness: two concrete elements that differ only in their
`data-zenid` state receive byte-identical signatures. -/
theorem generateElementSignature_spec_witness :
    generateElementSignature (some btnGo) =
      generateElementSignature (some { btnGo with dataZenId := some "zen-1n7tf2r" }) :=
  generateElementSignature_spec.2 btnGo { btnGo with dataZenId := some "zen-1n7tf2r" }
    rfl rfl rfl rfl rfl rfl

/-- String append is associative (on the underlying character lists). -/
theorem strAppend_assoc (a b c : String) : a ++ b ++ c = a ++ (b ++ c) := by
  cases a; cases b; cases c
  exact congrArg String.mk (List.append_assoc _ _ _)

/-- Updating the entry stored under a present key makes lookup return the
new entry. -/
theorem lookupZen_update_self (m : ZenMapping) (sig : String) (e0 e : ZenEntry)
    (h : lookupZen m sig = some e0) : lookupZen (updateZen m sig e) sig = some e := by
  induction m with
  | nil => simp [lookupZen] at h
  | cons kv rest ih =>
    obtain ⟨k, v⟩ := kv
    by_cases hk : sig = k
    · simp [lookupZen, updateZen, hk]
    · simp only [lookupZen, updateZen, hk, if_false, if_neg hk] at h ⊢
      exact ih h

/-- First request for a signature: store `{id, count: 1}`, return the base id. -/
theorem genZen_fresh (el : Option Element) (s : String) (m : ZenMapping)
    (hs : generateElementSignature el = some s) (hm : lookupZen m s = none) :
    generateStableZenId el m
      = (some ("zen-" ++ fnv32a s), (s, ⟨"zen-" ++ fnv32a s, 1⟩) :: m) := by
  simp [generateStableZenId, hs, hm]

/-- Later request for a signature: return the suffixed id and bump the count. -/
theorem genZen_found (el : Option Element) (s : String) (m : ZenMapping) (e : ZenEntry)
    (hs : generateElementSignature el = some s) (hm : lookupZen m s = some e) :
    generateStableZenId el m
      = (some (if e.count = 1 then "zen-" ++ fnv32a s ++ "-2"
               else "zen-" ++ fnv32a s ++ "-" ++ toString (e.count + 1)),
         updateZen m s ⟨e.id, e.count + 1⟩) := by
  simp [generateStableZenId, hs, hm]

/-- C3: starting from a registry with no entry for the signature, the
n-th of k successive StableId requests returns `zen-<hash>` for n = 1 and
`zen-<hash>-n` for every n ≥ 2, and after k requests the registry entry
holds the canonical id with count exactly k, having been incremented once
per request. -/
theorem generateStableZenId_sequence (el : Option Element) (s : String)
    (hs : generateElementSignature el = some s) (m0 : ZenMapping)
    (h0 : lookupZen m0 s = none) (k : Nat) :
    (zenRequests el m0 k).1 = (List.range k).map (fun i => some (expectedZenId s (i + 1))) ∧
    (1 ≤ k → lookupZen (zenRequests el m0 k).2 s = some ⟨"zen-" ++ fnv32a s, k⟩) := by
  induction k with
  | zero => simp [zenRequests]
  | succ k ih =>
    obtain ⟨ih1, ih2⟩ := ih
    rcases Nat.eq_zero_or_pos k with hk | hk
    · subst hk
      constructor
      · simp [zenRequests, genZen_fresh el s m0 hs h0, expectedZenId,
          List.range_succ, List.range_zero]
      · intro _
        simp [zenRequests, genZen_fresh el s m0 hs h0, lookupZen]
    · have h2 := ih2 hk
      have hfound := genZen_found el s (zenRequests el m0 k).2 ⟨"zen-" ++ fnv32a s, k⟩ hs h2
      constructor
      · rw [List.range_succ]
        simp only [zenRequests, hfound, ih1, List.map_append, List.map_cons, List.map_nil]
        congr 1
        have hk1 : ¬ (k + 1 ≤ 1) := by omega
        have h22 : "-2" = "-" ++ toString (1 + 1) := by decide
        by_cases hke : k = 1
        · subst hke
          simp [expectedZenId, hk1, h22, strAppend_assoc]
        · simp [expectedZenId, hk1, hke]
      · intro _
        simp only [zenRequests, hfound]
        exact lookupZen_update_self _ _ _ _ h2

set_option maxRecDepth 4000 in
/-- C3 witness: three successive requests for the spec scenario button
return the base id and the `-2`, `-3` variants, and the registry entry
ends with count 3. -/
theorem generateStableZenId_sequence_witness :
    (zenRequests (some btnGo) [] 3).1
        = [some "zen-1n7tf2r", some "zen-1n7tf2r-2", some "zen-1n7tf2r-3"] ∧
    lookupZen (zenRequests (some btnGo) [] 3).2 "button|id:go|text:Go"
        = some ⟨"zen-1n7tf2r", 3⟩ := by
  have h := generateStableZenId_sequence (some btnGo) "button|id:go|text:Go"
    (by decide) [] rfl 3
  exact ⟨by rw [h.1]; decide, by rw [h.2 (by decide)]; decide⟩

/-- C10: an input whose signature extraction yields null gets a null
StableId with the registry untouched; labeling it changes neither the
element nor the registry; and labeling an element that already carries a
`data-zenid` attribute is a complete no-op. -/
theorem null_signature_no_effect :
    (∀ (el : Option Element) (m : ZenMapping), generateElementSignature el = none →
        generateStableZenId el m = (none, m)) ∧
    (∀ (el : Element) (m : ZenMapping), generateElementSignature (some el) = none →
        labelElement el m = (el, m)) ∧
    (∀ (el : Element) (m : ZenMapping) (v : String), el.dataZenId = some v →
        labelElement el m = (el, m)) := by
  refine ⟨?_, ?_, ?_⟩
  · intro el m h
    simp [generateStableZenId, h]
  · intro el m h
    cases hd : el.dataZenId with
    | some v => simp [labelElement, hd]
    | none => simp [labelElement, hd, generateStableZenId, h]
  · intro el m v h
    simp [labelElement, h]

/-- C10 witness: concrete runs for a tag-less element and an
already-labeled element. -/
theorem null_signature_no_effect_witness :
    generateStableZenId (some noTagEl) [] = (none, []) ∧
    labelElement noTagEl [] = (noTagEl, []) ∧
    labelElement labeledEl [] = (labeledEl, []) :=
  ⟨null_signature_no_effect.1 (some noTagEl) [] rfl,
   null_signature_no_effect.2.1 noTagEl [] rfl,
   null_signature_no_effect.2.2 labeledEl [] "zen-abc" rfl⟩

/-- C7: the three misuse calls are state-preserving no-ops: init while
already active changes nothing (no configuration, listener registration,
or timer change), stop while not initialized removes nothing and flushes
nothing, and trackCustom while not active appends nothing. -/
theorem misuse_calls_are_noops :
    (∀ (ctx : Ctx) (uid : String) (rc : Bool) (cfg : ConfigOpts) (st : AgentState),
        st.isInit = true → USERQUERY.init ctx uid rc cfg st = st) ∧
    (∀ st : AgentState, st.isInit = false → USERQUERY.stop st = st) ∧
    (∀ (ctx : Ctx) (name : String) (data : Payload) (st : AgentState),
        st.isInit = false → USERQUERY.trackCustom ctx name data st = st) := by
  refine ⟨?_, ?_, ?_⟩
  · intro ctx uid rc cfg st h
    simp [USERQUERY.init, h]
  · intro st h
    simp [USERQUERY.stop, h]
  · intro ctx name data st h
    simp [USERQUERY.trackCustom, h]

/-- C7 witness: concrete no-op runs of all three misuse calls. -/
theorem misuse_calls_are_noops_witness :
    USERQUERY.init ctxA "u2" true ⟨some "xyz", some 1000⟩ stActive = stActive ∧
    USERQUERY.stop initialState = initialState ∧
    USERQUERY.trackCustom ctxA "evt" [] initialState = initialState :=
  ⟨misuse_calls_are_noops.1 ctxA "u2" true ⟨some "xyz", some 1000⟩ stActive rfl,
   misuse_calls_are_noops.2.1 initialState rfl,
   misuse_calls_are_noops.2.2 ctxA "evt" [] initialState rfl⟩

/-- C8 counterexample: after start and stop, a second start call brings
the instance back to the Active state, re-registers the seven event
sources and restarts the flush timer — refuting the claim that Stopped
is terminal. -/
theorem stopped_agent_restart :
    restartedState.isInit = true ∧
    restartedState.eventListeners = coreListeners ∧
    restartedState.batchTimer = some 5000 := by decide

/-- C8 amended: stop leaves the instance in the same not-initialized
state as Uninitialized, so a subsequent start call re-initializes it —
re-registering the event sources and restarting the flush timer — and
returns it to Active; Stopped is not terminal. -/
theorem stop_then_init_reactivates (ctx : Ctx) (uid : String) (rc : Bool)
    (cfg : ConfigOpts) (st : AgentState) (h : st.isInit = true) :
    (USERQUERY.init ctx uid rc cfg (USERQUERY.stop st)).isInit = true ∧
    (USERQUERY.init ctx uid rc cfg (USERQUERY.stop st)).eventListeners = coreListeners ∧
    (USERQUERY.init ctx uid rc cfg (USERQUERY.stop st)).batchTimer
      = some (mergeConfig cfg).batchInterval := by
  simp only [USERQUERY.stop, USERQUERY.init, h, flushEventBatch, trackInternal]
  split_ifs <;> simp_all [trackInternal]

/-- C8 witness: a concrete stopped agent is reactivated by a second
start call. -/
theorem stop_then_init_reactivates_witness :
    (USERQUERY.init ctxA "u1" true ⟨none, some 250⟩ (USERQUERY.stop stActiveBatch)).isInit
        = true ∧
    (USERQUERY.init ctxA "u1" true ⟨none, some 250⟩
        (USERQUERY.stop stActiveBatch)).eventListeners = coreListeners ∧
    (USERQUERY.init ctxA "u1" true ⟨none, some 250⟩ (USERQUERY.stop stActiveBatch)).batchTimer
        = some (mergeConfig ⟨none, some 250⟩).batchInterval :=
  stop_then_init_reactivates ctxA "u1" true ⟨none, some 250⟩ stActiveBatch rfl

/-- Object-spread lookup: in a concatenation, keys of the right-hand
(later) object take precedence. -/
theorem jsGet_append (a b : Payload) (key : String) :
    jsGet (a ++ b) key = (jsGet b key).or (jsGet a key) := by
  induction a with
  | nil => cases h : jsGet b key <;> simp [jsGet, Option.or, h]
  | cons hd tl ih =>
    obtain ⟨k, v⟩ := hd
    cases h1 : jsGet b key <;> cases h2 : jsGet tl key <;>
      simp [jsGet, Option.or, ih, h1, h2]

/-- C9: the enriched TrackedEvent appended to the buffer is the fixed
base context (eventName, timestamp, siteId, userId, url, userAgent,
screenSize, language, referrer) spread-merged with the caller data;
caller keys take precedence on every conflict, including `eventName`
itself; trackCustom on an active agent records exactly this merge. -/
theorem trackInternal_merge :
    (∀ (ctx : Ctx) (st : AgentState) (name : String) (data : Payload),
        (trackInternal ctx st name data).eventBatch
          = st.eventBatch ++ [baseContext ctx st name ++ data]) ∧
    (∀ (ctx : Ctx) (st : AgentState) (name : String) (data : Payload) (key : String),
        jsGet (baseContext ctx st name ++ data) key
          = (jsGet data key).or (jsGet (baseContext ctx st name) key)) ∧
    (∀ (ctx : Ctx) (st : AgentState) (name : String) (data : Payload) (v : JSVal),
        jsGet data "eventName" = some v →
        jsGet (baseContext ctx st name ++ data) "eventName" = some v) ∧
    (∀ (ctx : Ctx) (name : String) (data : Payload) (st : AgentState),
        st.isInit = true →
        USERQUERY.trackCustom ctx name data st = trackInternal ctx st name data) := by
  refine ⟨?_, ?_, ?_, ?_⟩
  · intro ctx st name data
    rfl
  · intro ctx st name data key
    exact jsGet_append _ _ _
  · intro ctx st name data v h
    rw [jsGet_append, h]
    rfl
  · intro ctx name data st h
    simp [USERQUERY.trackCustom, h]

/-- C9 witness: a caller data object carrying an `eventName` key silently
replaces the base `eventName` field in the enriched payload. -/
theorem trackInternal_merge_witness :
    jsGet (baseContext ctxA stActive "click" ++ [("eventName", JSVal.str "override")])
      "eventName" = some (JSVal.str "override") :=
  trackInternal_merge.2.2.1 ctxA stActive "click"
    [("eventName", JSVal.str "override")] (JSVal.str "override") rfl

/-- C1 counterexample: with one buffered event, the flush attempt hands
the batch to the transport but does not clear the live buffer — the
buffer is not swapped for an empty sequence at the flush attempt. -/
theorem flush_attempt_leaves_buffer :
    (flushEventBatch stActiveBatch).eventBatch = [[("eventName", JSVal.str "click")]] ∧
    (flushEventBatch stActiveBatch).delivered
      = [⟨some "u1", some "abc", [[("eventName", JSVal.str "click")]]⟩] := by decide

/-- C1 amended: flush is a no-op performing no delivery call on an empty
buffer; on a non-empty buffer it hands the full current sequence plus
userId and siteId to the delivery transport, but the buffer is cleared
only when the delivery later completes — the success and failure
callbacks both clear it — not at the flush attempt itself. -/
theorem flushEventBatch_amended (st : AgentState) :
    (st.eventBatch = [] → flushEventBatch st = st) ∧
    (st.eventBatch ≠ [] →
      (flushEventBatch st).delivered
        = st.delivered ++ [⟨st.userId, st.siteId, st.eventBatch⟩] ∧
      (flushEventBatch st).eventBatch = st.eventBatch ∧
      ∀ ok : Bool, (completeDelivery ok (flushEventBatch st)).eventBatch = []) := by
  constructor
  · intro h
    simp [flushEventBatch, h]
  · intro h
    refine ⟨?_, ?_, ?_⟩ <;> simp [flushEventBatch, completeDelivery, h]

/-- C1 witness: concrete flushes of an empty and of a non-empty buffer,
with both completion outcomes clearing the buffer. -/
theorem flushEventBatch_amended_witness :
    flushEventBatch initialState = initialState ∧
    (flushEventBatch stActiveBatch).delivered
      = stActiveBatch.delivered
        ++ [⟨stActiveBatch.userId, stActiveBatch.siteId, stActiveBatch.eventBatch⟩] ∧
    (flushEventBatch stActiveBatch).eventBatch = stActiveBatch.eventBatch ∧
    (completeDelivery true (flushEventBatch stActiveBatch)).eventBatch = [] ∧
    (completeDelivery false (flushEventBatch stActiveBatch)).eventBatch = [] :=
  ⟨(flushEventBatch_amended initialState).1 rfl,
   ((flushEventBatch_amended stActiveBatch).2 (by decide)).1,
   ((flushEventBatch_amended stActiveBatch).2 (by decide)).2.1,
   ((flushEventBatch_amended stActiveBatch).2 (by decide)).2.2 true,
   ((flushEventBatch_amended stActiveBatch).2 (by decide)).2.2 false⟩

/-- C2: in the interleaving record(click) → flush → record(scroll) →
delivery completes, the completion callback resets the live buffer and
thereby discards the scroll event recorded after the flush started: the
buffer ends empty, the only transport call carries just the click event,
the scroll payload appears in no delivery, and a further flush is a
no-op — the scroll event is lost, contradicting the claim. -/
theorem flush_completion_discards_interleaved_events :
    raceState.eventBatch = [] ∧
    flushEventBatch raceState = raceState ∧
    raceState.delivered = [⟨some "u1", some "abc", [clickPayA]⟩] ∧
    scrollPayA ∉ (raceState.delivered.map Delivery.events).flatten := by decide

set_option maxRecDepth 8000 in
/-- A byte below 256 renders as exactly two hex characters. -/
theorem byteHex_len : ∀ b : Nat, b < 256 → (byteHex b).length = 2 := by decide

/-- The hex rendering of a byte list has two characters per byte. -/
theorem hexFlatten_len (bytes : List Nat) (hb : ∀ b ∈ bytes, b < 256) :
    ((bytes.map byteHex).flatten).length = 2 * bytes.length := by
  induction bytes with
  | nil => simp
  | cons b bs ih =>
    simp only [List.map_cons, List.flatten_cons, List.length_append, List.length_cons]
    rw [byteHex_len b (hb b (by simp)), ih (fun x hx => hb x (by simp [hx]))]
    ring

/-- Appending strings appends their character lists. -/
theorem strMk_append (a b : List Char) : String.mk a ++ String.mk b = String.mk (a ++ b) :=
  rfl

/-- The manual fallback identifier splits as five dash-separated groups
of 8, 4, 4, 4 and 12 characters. -/
theorem uuidFromBytes_shape (bytes : List Nat) (hlen : bytes.length = 16)
    (hb : ∀ b ∈ bytes, b < 256) :
    ∃ g1 g2 g3 g4 g5 : String,
      uuidFromBytes bytes = g1 ++ "-" ++ g2 ++ "-" ++ g3 ++ "-" ++ g4 ++ "-" ++ g5 ∧
      g1.length = 8 ∧ g2.length = 4 ∧ g3.length = 4 ∧ g4.length = 4 ∧ g5.length = 12 := by
  have h32 : ((bytes.map byteHex).flatten).length = 32 := by
    rw [hexFlatten_len bytes hb, hlen]
  refine ⟨String.mk (substrJS ((bytes.map byteHex).flatten) 0 8),
    String.mk (substrJS ((bytes.map byteHex).flatten) 8 4),
    String.mk (substrJS ((bytes.map byteHex).flatten) 12 4),
    String.mk (substrJS ((bytes.map byteHex).flatten) 16 4),
    String.mk (substrJS ((bytes.map byteHex).flatten) 20 12), ?_, ?_, ?_, ?_, ?_, ?_⟩
  · rw [show ("-" : String) = String.mk ['-'] from rfl]
    simp only [strMk_append, uuidFromBytes]
    exact congrArg String.mk (by simp)
  all_goals
    simp only [String.length, substrJS, List.length_take, List.length_drop, h32]
  all_goals omega

/-- C6 counterexample: with the `crypto` object absent entirely and
storage readable but empty, obtaining the user identifier raises a
TypeError to the caller instead of synthesizing a fallback identifier. -/
theorem getOrCreateUserId_throws_without_crypto :
    getOrCreateUserId ⟨false, none, false⟩ ⟨false, false, "", false, []⟩
      = Except.error "TypeError: crypto.getRandomValues is not a function" := rfl

/-- C6 amended: storage read and write failures are caught — the function
warns and continues with the in-memory value — and no error reaches the
caller provided the `crypto` object is present with `randomUUID` or
`getRandomValues`; in the fallback branch the synthesized identifier is a
UUID-shaped string of dash-separated groups of 8, 4, 4, 4 and 12 hex
characters. (When `crypto` is absent entirely the function throws; see
the counterexample.) -/
theorem getOrCreateUserId_amended (st : StorageEnv) (cr : CryptoEnv)
    (hp : cr.present = true)
    (hm : cr.hasRandomUUID = true ∨ cr.hasGetRandomValues = true) :
    (∃ uid st2, getOrCreateUserId st cr = Except.ok (uid, st2)) ∧
    (jsTruthy (if st.getThrows then none else st.stored) = false →
      cr.hasRandomUUID = false → cr.hasGetRandomValues = true →
      cr.randomBytes.length = 16 → (∀ b ∈ cr.randomBytes, b < 256) →
      ∃ (g1 g2 g3 g4 g5 : String) (st2 : StorageEnv),
        getOrCreateUserId st cr
          = Except.ok (g1 ++ "-" ++ g2 ++ "-" ++ g3 ++ "-" ++ g4 ++ "-" ++ g5, st2) ∧
        g1.length = 8 ∧ g2.length = 4 ∧ g3.length = 4 ∧ g4.length = 4 ∧
        g5.length = 12) := by
  constructor
  · simp only [getOrCreateUserId]
    by_cases hg : jsTruthy (if st.getThrows then none else st.stored) = true
    · simp [hg]
    · by_cases hru : cr.hasRandomUUID = true <;>
        by_cases hgrv : cr.hasGetRandomValues = true <;>
        by_cases hset : st.setThrows = true <;>
        simp [hg, hp, hru, hgrv, hset] <;>
        rcases hm with h | h <;> simp_all
  · intro hfalse hru hgrv hlen hbts
    have h16 : cr.randomBytes.take 16 = cr.randomBytes :=
      List.take_of_length_le (le_of_eq hlen)
    obtain ⟨g1, g2, g3, g4, g5, hequ, hl1, hl2, hl3, hl4, hl5⟩ :=
      uuidFromBytes_shape cr.randomBytes hlen hbts
    have run : ∃ st2, getOrCreateUserId st cr
        = Except.ok (uuidFromBytes cr.randomBytes, st2) := by
      unfold getOrCreateUserId
      by_cases hset : st.setThrows <;>
        simp [hfalse, hp, hru, hgrv, hset, h16]
    obtain ⟨st2, hrun⟩ := run
    exact ⟨g1, g2, g3, g4, g5, st2, by rw [hrun, hequ], hl1, hl2, hl3, hl4, hl5⟩

set_option maxRecDepth 8000 in
/-- C6 witness: with storage fully broken and `crypto.getRandomValues`
the only random source, the function still returns a UUID-shaped
identifier built from sixteen concrete bytes. -/
theorem getOrCreateUserId_amended_witness :
    ∃ (g1 g2 g3 g4 g5 : String) (st2 : StorageEnv),
      getOrCreateUserId ⟨true, none, true⟩ ⟨true, false, "ignored", true, rb16⟩
        = Except.ok (g1 ++ "-" ++ g2 ++ "-" ++ g3 ++ "-" ++ g4 ++ "-" ++ g5, st2) ∧
      g1.length = 8 ∧ g2.length = 4 ∧ g3.length = 4 ∧ g4.length = 4 ∧ g5.length = 12 :=
  (getOrCreateUserId_amended ⟨true, none, true⟩ ⟨true, false, "ignored", true, rb16⟩ rfl
    (Or.inr rfl)).2 rfl rfl rfl (by decide) (by decide)

end UserQuery
